import Mathlib

/-!
# joinself/academy — Go client convenience layer

A shallow embedding of `sdks/go/client/utils.go` and `sdks/go/client/config.go`
together with theorems about the credential helpers and the configuration
constructors.

Conventions of the embedding:

* a Go slice `[]string` / `[]byte` is a `List`;
* a Go `(T, error)` pair keeps both components, the error being an `Option`;
* calls that leave the package (`os.MkdirAll`, `crypto/rand`, `crypto/sha256`,
  `time.Now`, `New`) are taken from an explicit environment and every call is
  recorded in a trace, so that the order of effects can be stated.
-/

namespace Academy

/-! ## Credentials (`utils.go`) -/

/-- Dynamic value stored under a claim name (`interface{}` in
`map[string]interface{}`); `float64` is kept as its 64-bit pattern and every
other dynamic type is `other`. -/
inductive ClaimValue where
  | str (s : String)
  | bool (b : Bool)
  | int (i : Int)
  | float64 (bits : Nat)
  | other
  deriving DecidableEq, Repr

/-- Go `error` values met in the package: a package-level sentinel (identified
by the name of its variable), an error built by `fmt.Errorf` (with the
formatted text), an error built by `fmt.Errorf` with a trailing `%w` (text
before the verb, and the wrapped cause), and an error coming from outside the
package.  The `nil` error is `none : Option Error`. -/
inductive Error where
  | sentinel (name : String)
  | errorf (text : String)
  | errorfWrap (text : String) (cause : Error)
  | external (text : String)
  deriving DecidableEq, Repr

/-- Modelled from the spec: `ErrStorageKeyRequired` is declared in the package
outside the listed sources; it is a non-nil sentinel error. -/
def ErrStorageKeyRequired : Error := Error.sentinel "ErrStorageKeyRequired"

/-- Modelled from the spec: `ErrStoragePathRequired` is declared in the package
outside the listed sources; it is a non-nil sentinel error, distinct from
`ErrStorageKeyRequired`. -/
def ErrStoragePathRequired : Error := Error.sentinel "ErrStoragePathRequired"

/-- The part of `credential.VerifiableCredential` the helpers read: the result
of `CredentialType()` and the result of `CredentialSubjectClaims()`, a claim
map (looked up by name) or an error. -/
structure VerifiableCredential where
  CredentialType : List String
  CredentialSubjectClaims : Except Error (String → Option ClaimValue)

/-- Body of the `for i, t := range credType` loop of `IsCredentialOfType`,
started at index `i` on the remaining elements: `false` as soon as
`i >= len(credentialType)` or `t != credentialType[i]`, `true` when the range
is exhausted. -/
def isCredentialOfTypeLoop (credentialType : List String) : Nat → List String → Bool
  | _, [] => true
  | i, t :: rest =>
    match credentialType[i]? with
    | none => false
    | some u => if t != u then false else isCredentialOfTypeLoop credentialType (i + 1) rest

/-- Embedding of `IsCredentialOfType` (utils.go:90). -/
def IsCredentialOfType (cred : VerifiableCredential) (credentialType : List String) : Bool :=
  let credType := cred.CredentialType
  if credType.length != credentialType.length then false
  else isCredentialOfTypeLoop credentialType 0 credType

/-- Embedding of `ExtractEmailFromCredential` (utils.go:104).  The constant
`credential.CredentialTypeEmail` belongs to the SDK and is a parameter. -/
def ExtractEmailFromCredential (CredentialTypeEmail : List String)
    (cred : VerifiableCredential) : String × Bool :=
  if !IsCredentialOfType cred CredentialTypeEmail then ("", false)
  else
    match cred.CredentialSubjectClaims with
    | .error _ => ("", false)
    | .ok claims =>
      match claims "emailAddress" with
      | some (.str emailStr) => (emailStr, true)
      | _ => ("", false)


/-- Type assertion `v.(string)` on the result of a map lookup: the string and
`true` when the claim is present with a string value, the zero value `""` and
`false` otherwise (absent key, or a value of another dynamic type). -/
def assertString : Option ClaimValue → String × Bool
  | some (.str s) => (s, true)
  | _ => ("", false)

/-- Type assertion `v.(int)` on the result of a map lookup; zero value `0`. -/
def assertInt : Option ClaimValue → Int × Bool
  | some (.int i) => (i, true)
  | _ => (0, false)

/-- Type assertion `v.(float64)` on the result of a map lookup; the value is
kept as its bit pattern and the zero value `0.0` has pattern `0`. -/
def assertFloat64 : Option ClaimValue → Nat × Bool
  | some (.float64 bits) => (bits, true)
  | _ => (0, false)

/-- Embedding of `ExtractNameFromCredential` (utils.go:123).  The constant
`credential.CredentialTypeProfileName` belongs to the SDK and is a parameter. -/
def ExtractNameFromCredential (CredentialTypeProfileName : List String)
    (cred : VerifiableCredential) : String × String × Bool :=
  if !IsCredentialOfType cred CredentialTypeProfileName then ("", "", false)
  else
    match cred.CredentialSubjectClaims with
    | .error _ => ("", "", false)
    | .ok claims =>
      let (firstName, firstOk) := assertString (claims "firstName")
      let (lastName, lastOk) := assertString (claims "lastName")
      if firstOk && lastOk then (firstName, lastName, true)
      else ("", "", false)

/-- Embedding of `ExtractEducationFromCredential` (utils.go:143); the `float64`
component of the result is a bit pattern. -/
def ExtractEducationFromCredential (cred : VerifiableCredential) :
    String × String × Int × Nat × Bool :=
  if !IsCredentialOfType cred ["VerifiableCredential", "EducationCredential"] then
    ("", "", 0, 0, false)
  else
    match cred.CredentialSubjectClaims with
    | .error _ => ("", "", 0, 0, false)
    | .ok claims =>
      let (degree, degreeOk) := assertString (claims "degree")
      let (institution, instOk) := assertString (claims "institution")
      let (graduationYear, yearOk) := assertInt (claims "graduationYear")
      let (gpa, gpaOk) := assertFloat64 (claims "gpa")
      if degreeOk && instOk && yearOk && gpaOk then
        (degree, institution, graduationYear, gpa, true)
      else ("", "", 0, 0, false)

/-! ### Credential builder -/

/-- Modelled from the spec: the credential builder of the package is declared
outside the listed sources.  Following §4.1 it accumulates the issuance
parameters; a field that no call has set yet is `none`, and `claims` is the
claim map accumulated so far. -/
structure CredentialBuilder where
  credentialType : Option (List String)
  subject : Option String
  issuer : Option String
  claims : String → Option ClaimValue
  validFrom : Option Int
  signWith : Option (String × Int)

/-- Modelled from the spec: `NewCredentialBuilder()` is declared outside the
listed sources; it starts a chain with nothing set and no claim. -/
def NewCredentialBuilder : CredentialBuilder :=
  { credentialType := none, subject := none, issuer := none, claims := fun _ => none,
    validFrom := none, signWith := none }

/-- Modelled from the spec: the builder method `Type` is declared outside the
listed sources (`Type` is reserved in Lean, hence the name); it records the
credential type. -/
def CredentialBuilder.SetType (b : CredentialBuilder) (t : List String) : CredentialBuilder :=
  { b with credentialType := some t }

/-- Modelled from the spec: the builder method `Subject` is declared outside
the listed sources; it records the subject identity. -/
def CredentialBuilder.Subject (b : CredentialBuilder) (did : String) : CredentialBuilder :=
  { b with subject := some did }

/-- Modelled from the spec: the builder method `Issuer` is declared outside the
listed sources; it records the issuer identity. -/
def CredentialBuilder.Issuer (b : CredentialBuilder) (did : String) : CredentialBuilder :=
  { b with issuer := some did }

/-- Modelled from the spec: the builder method `Claim` is declared outside the
listed sources; "a later call with the same field name overwrites the earlier
value (last-write-wins)", other names are untouched. -/
def CredentialBuilder.Claim (b : CredentialBuilder) (name : String) (v : ClaimValue) :
    CredentialBuilder :=
  { b with claims := fun k => if k = name then some v else b.claims k }

/-- Modelled from the spec: the builder method `ValidFrom` is declared outside
the listed sources; it records the validity-start timestamp. -/
def CredentialBuilder.ValidFrom (b : CredentialBuilder) (t : Int) : CredentialBuilder :=
  { b with validFrom := some t }

/-- Modelled from the spec: the builder method `SignWith` is declared outside
the listed sources; it "binds the signing identity and a signing timestamp". -/
def CredentialBuilder.SignWith (b : CredentialBuilder) (did : String) (t : Int) :
    CredentialBuilder :=
  { b with signWith := some (did, t) }

/-- Modelled from the spec: the error kind `MissingRequiredField`, "naming the
first missing field", is declared outside the listed sources. -/
def MissingRequiredField (field : String) : Error :=
  Error.errorf ("MissingRequiredField: " ++ field)

/-- Modelled from the spec: the terminal method `Issue` is declared outside the
listed sources.  `Type`, `Subject`, `Issuer`, `ValidFrom` and `SignWith` are
required, and without one of them the call fails with `MissingRequiredField`
naming the first missing one; otherwise it "returns a VerifiableCredential
whose type, subject, issuer, and claims exactly match the accumulated values".
Of the credential only the type and the claims are represented. -/
def CredentialBuilder.Issue (b : CredentialBuilder) :
    Option VerifiableCredential × Option Error :=
  match b.credentialType, b.subject, b.issuer, b.validFrom, b.signWith with
  | none, _, _, _, _ => (none, some (MissingRequiredField "Type"))
  | some _, none, _, _, _ => (none, some (MissingRequiredField "Subject"))
  | some _, some _, none, _, _ => (none, some (MissingRequiredField "Issuer"))
  | some _, some _, some _, none, _ => (none, some (MissingRequiredField "ValidFrom"))
  | some _, some _, some _, some _, none => (none, some (MissingRequiredField "SignWith"))
  | some t, some _, some _, some _, some _ =>
    (some { CredentialType := t, CredentialSubjectClaims := .ok b.claims }, none)

/-- Embedding of `CreateSimpleEmailCredential` (utils.go:48).  `clientDID` is
`client.DID()`, `now₁` and `now₂` are the two readings of `time.Now()`, and the
constant `credential.CredentialTypeEmail` is a parameter. -/
def CreateSimpleEmailCredential (CredentialTypeEmail : List String) (clientDID : String)
    (now₁ now₂ : Int) (subjectDID emailAddress : String) :
    Option VerifiableCredential × Option Error :=
  ((((((NewCredentialBuilder.SetType CredentialTypeEmail).Subject subjectDID).Issuer
    clientDID).Claim "emailAddress" (.str emailAddress)).Claim "verified"
    (.bool true)).ValidFrom now₁).SignWith clientDID now₂ |>.Issue


/-! ## Configuration (`config.go`) -/

/-- One element of a Go `[]byte`. -/
abbrev Byte := UInt8

/-- Go `type Environment int`. -/
structure Environment where
  val : Int
  deriving DecidableEq, Repr

/-- Constant `Sandbox Environment = iota`. -/
def Sandbox : Environment := ⟨0⟩

/-- Constant `Production`, the second of the `iota` block. -/
def Production : Environment := ⟨1⟩

/-- Go `type LogLevel int`. -/
structure LogLevel where
  val : Int
  deriving DecidableEq, Repr

/-- Constant `LogError LogLevel = iota`. -/
def LogError : LogLevel := ⟨0⟩

/-- Constant `LogWarn`. -/
def LogWarn : LogLevel := ⟨1⟩

/-- Constant `LogInfo`. -/
def LogInfo : LogLevel := ⟨2⟩

/-- Constant `LogDebug`. -/
def LogDebug : LogLevel := ⟨3⟩

/-- Constant `LogTrace`. -/
def LogTrace : LogLevel := ⟨4⟩

/-- Go `type Config struct` (config.go:33). -/
structure Config where
  StorageKey : List Byte
  StoragePath : String
  Environment : Environment
  LogLevel : LogLevel
  SkipReady : Bool
  SkipSetup : Bool
  deriving DecidableEq, Repr

/-- The zero value `Config{}`: nil key, empty path, both integer fields `0`,
both flags `false`. -/
def Config.zero : Config :=
  { StorageKey := [], StoragePath := "", Environment := ⟨0⟩, LogLevel := ⟨0⟩,
    SkipReady := false, SkipSetup := false }

namespace account

/-- Modelled from the spec: `account.Target` is declared in the SDK, outside
the sources; the three endpoint fields are the ones `config_test.go` reads. -/
structure Target where
  Rpc : String
  Object : String
  Message : String
  deriving DecidableEq, Repr

/-- Modelled from the spec: `account.TargetSandbox` is declared in the SDK;
its endpoints are the ones asserted in `TestEnvironmentMapping`. -/
def TargetSandbox : Target :=
  { Rpc := "https://rpc-sandbox.joinself.com/"
    Object := "https://object-sandbox.joinself.com/"
    Message := "wss://message-sandbox.joinself.com/" }

/-- Modelled from the spec: `account.TargetProduction` is declared in the SDK;
its endpoints are the ones asserted in `TestEnvironmentMapping`. -/
def TargetProduction : Target :=
  { Rpc := "https://rpc.joinself.com/"
    Object := "https://object.joinself.com/"
    Message := "wss://message.joinself.com/" }

/-- Modelled from the spec: `account.LogLevel` is declared in the SDK; only the
five named levels used by `toAccountConfig` are represented. -/
inductive LogLevel where
  | LogError
  | LogWarn
  | LogInfo
  | LogDebug
  | LogTrace
  deriving DecidableEq, Repr

/-- Modelled from the spec: `account.Config` is declared in the SDK; these are
the six fields `toAccountConfig` assigns. -/
structure Config where
  StorageKey : List Byte
  StoragePath : String
  Environment : Target
  LogLevel : LogLevel
  SkipReady : Bool
  SkipSetup : Bool
  deriving DecidableEq, Repr

end account

/-- Embedding of `(*Config).validate` (config.go:54); `none` is the `nil`
error. -/
def Config.validate (c : Config) : Option Error :=
  if c.StorageKey.length == 0 then some ErrStorageKeyRequired
  else if c.StoragePath == "" then some ErrStoragePathRequired
  else none

/-- Embedding of `(*Config).toAccountConfig` (config.go:65).  The composite
literal and the two `switch` statements are folded into one record; the
environment `switch` has a single `default` arm, the log-level `switch` tries
its cases from top to bottom. -/
def Config.toAccountConfig (c : Config) : account.Config :=
  { StorageKey := c.StorageKey
    StoragePath := c.StoragePath
    SkipReady := c.SkipReady
    SkipSetup := c.SkipSetup
    Environment :=
      match c.Environment with
      | _ => account.TargetSandbox
    LogLevel :=
      if c.LogLevel = LogError then account.LogLevel.LogError
      else if c.LogLevel = LogWarn then account.LogLevel.LogWarn
      else if c.LogLevel = LogInfo then account.LogLevel.LogInfo
      else if c.LogLevel = LogDebug then account.LogLevel.LogDebug
      else if c.LogLevel = LogTrace then account.LogLevel.LogTrace
      else account.LogLevel.LogWarn }

/-- Handle standing for the `*Client` that `New` returns; its fields are not
read by `config.go`. -/
structure Client where
  handle : Nat
  deriving DecidableEq, Repr

/-- A call leaving `config.go` that the constructors perform, in the order
performed. -/
inductive Call where
  | MkdirAll (path : String) (perm : Nat)
  | New (config : Config)
  deriving DecidableEq, Repr

/-- Everything the constructors obtain from outside `config.go`.

* `randBytes i` is the byte `rand.Read` stores at index `i` of the buffer and
  `randErr` the error it returns;
* `now` is `time.Now().UnixNano()`;
* `Sum256` is `sha256.Sum256`, whose result type is the array `[32]byte`;
* `MkdirAll` is `os.MkdirAll`;
* `New` is the package constructor `New(config)`. -/
structure Env where
  randBytes : Nat → Byte
  randErr : Option Error
  now : Int
  Sum256 : List Byte → (Fin 32 → Byte)
  MkdirAll : String → Nat → Option Error
  New : Config → Option Client × Option Error

/-- Embedding of `generateSecureStorageKey` (config.go:99).  `make([]byte, 32)`
is a list of 32 zero bytes; `rand.Read(key)` overwrites the elements of `key`
in place; `h[:]` lists the 32 elements of the array `h`. -/
def generateSecureStorageKey (env : Env) : List Byte :=
  let key : List Byte := List.replicate 32 0
  let key := key.enum.map (fun p => env.randBytes p.1)
  match env.randErr with
  | some _ =>
    let h := env.Sum256 ("self-sdk-" ++ toString env.now).toUTF8.toList
    List.ofFn h
  | none => key

/-- Embedding of `NewSimplified` (config.go:122): the result of `New` and the
trace of outside calls. -/
def NewSimplified (env : Env) (storagePath : String) :
    (Option Client × Option Error) × List Call :=
  let config : Config :=
    { StorageKey := generateSecureStorageKey env
      StoragePath := storagePath
      Environment := Sandbox
      LogLevel := LogWarn
      SkipReady := false
      SkipSetup := false }
  (env.New config, [Call.New config])

/-- Embedding of `NewSimplifiedWithKey` (config.go:142): the returned pair and
the trace of outside calls.  `fmt.Errorf` with `%d` prints the length in
decimal. -/
def NewSimplifiedWithKey (env : Env) (storageKey : List Byte) (storagePath : String) :
    (Option Client × Option Error) × List Call :=
  if storageKey.length != 32 then
    ((none, some (Error.errorf
      ("storage key must be exactly 32 bytes, got " ++ toString storageKey.length))), [])
  else
    match env.MkdirAll storagePath 0o700 with
    | some err =>
      ((none, some (Error.errorfWrap "failed to create storage directory: " err)),
        [Call.MkdirAll storagePath 0o700])
    | none =>
      let config : Config :=
        { StorageKey := storageKey
          StoragePath := storagePath
          Environment := Production
          LogLevel := LogError
          SkipReady := false
          SkipSetup := false }
      (env.New config, [Call.MkdirAll storagePath 0o700, Call.New config])

/-! ## Concrete inputs used to evaluate the embedding -/

/-- Claim map holding the single claim `name ↦ v`. -/
def singleClaim (name : String) (v : ClaimValue) : String → Option ClaimValue :=
  fun k => if k = name then some v else none

/-- The email credential type named in the specification's scenarios. -/
def emailType : List String := ["VerifiableCredential", "EmailCredential"]

/-- A credential of another type that nevertheless carries a string
`emailAddress` claim. -/
def profileCredWithEmail : VerifiableCredential :=
  { CredentialType := ["VerifiableCredential", "ProfileCredential"]
    CredentialSubjectClaims := .ok (singleClaim "emailAddress" (.str "alice@example.com")) }

/-- A credential whose type lists the email tags in the other order. -/
def swappedEmailCred : VerifiableCredential :=
  { CredentialType := ["EmailCredential", "VerifiableCredential"]
    CredentialSubjectClaims := .ok (singleClaim "emailAddress" (.str "alice@example.com")) }

/-- The configuration built in `TestEnvironmentMapping` for the case
"Production environment": `make([]byte, 32)`, `"/tmp/test"`, `Production`,
`LogWarn`. -/
def productionTestConfig : Config :=
  { StorageKey := List.replicate 32 0
    StoragePath := "/tmp/test"
    Environment := Production
    LogLevel := LogWarn
    SkipReady := false
    SkipSetup := false }

/-- The configuration of `TestDefaultEnvironment`, whose `Environment` is left
at its zero value. -/
def defaultEnvTestConfig : Config :=
  { StorageKey := List.replicate 32 0
    StoragePath := "/tmp/test"
    Environment := ⟨0⟩
    LogLevel := LogWarn
    SkipReady := false
    SkipSetup := false }

/-- An environment in which every outside call succeeds: the random source
delivers the bytes `0, 1, 2, …`, the directory is created and `New` returns a
client. -/
def okEnv : Env :=
  { randBytes := fun i => UInt8.ofNat i
    randErr := none
    now := 1700000000000000000
    Sum256 := fun _ _ => 0
    MkdirAll := fun _ _ => none
    New := fun _ => (some ⟨1⟩, none) }

/-- The key of `TestNewSimplifiedWithKey`: the bytes `0 … 31`. -/
def testStorageKey : List Byte := (List.range 32).map UInt8.ofNat

/-- An environment whose random source fails, so that the SHA-256 fallback of
`generateSecureStorageKey` runs; the digest is a fixed array of 32 bytes. -/
def randFailEnv : Env :=
  { okEnv with
    randErr := some (Error.external "rand: read failed")
    Sum256 := fun _ i => UInt8.ofNat (255 - i.val) }

/-- A profile-name type used to evaluate `ExtractNameFromCredential`. -/
def profileNameType : List String := ["VerifiableCredential", "ProfileNameCredential"]

/-- Claim map with the three claims written by `CreateSimpleProfileCredential`. -/
def profileClaims : String → Option ClaimValue :=
  fun k =>
    if k = "firstName" then some (.str "Ada")
    else if k = "lastName" then some (.str "Lovelace")
    else if k = "country" then some (.str "GB")
    else none

/-- A profile-name credential carrying `profileClaims`. -/
def profileNameCred : VerifiableCredential :=
  { CredentialType := profileNameType, CredentialSubjectClaims := .ok profileClaims }

/-- A profile-name credential whose `lastName` claim is a boolean. -/
def profileNameCredBadLast : VerifiableCredential :=
  { CredentialType := profileNameType
    CredentialSubjectClaims :=
      .ok (fun k => if k = "lastName" then some (.bool true) else profileClaims k) }

/-- Claim map with the four claims written by `CreateSimpleEducationCredential`;
`4.0` has the bit pattern `0x4010000000000000`. -/
def educationClaims : String → Option ClaimValue :=
  fun k =>
    if k = "degree" then some (.str "BSc")
    else if k = "institution" then some (.str "MIT")
    else if k = "graduationYear" then some (.int 2020)
    else if k = "gpa" then some (.float64 0x4010000000000000)
    else none

/-- An education credential carrying `educationClaims`. -/
def educationCred : VerifiableCredential :=
  { CredentialType := ["VerifiableCredential", "EducationCredential"]
    CredentialSubjectClaims := .ok educationClaims }

/-- An education credential whose `graduationYear` is a `float64`, the other
three claims being well-formed. -/
def educationCredFloatYear : VerifiableCredential :=
  { CredentialType := ["VerifiableCredential", "EducationCredential"]
    CredentialSubjectClaims :=
      .ok (fun k => if k = "graduationYear" then some (.float64 0x409F900000000000)
                    else educationClaims k) }

/-- A configuration with its own values in the four copied fields and a log
level outside the five named constants. -/
def oddLogLevelConfig : Config :=
  { StorageKey := [1, 2, 3]
    StoragePath := "/var/self"
    Environment := Sandbox
    LogLevel := ⟨7⟩
    SkipReady := true
    SkipSetup := false }

/-! ## Theorems -/

/-- Helper: the loop started at index `i` succeeds exactly when the remaining
elements are the elements of `want` from position `i` on. -/
theorem isCredentialOfTypeLoop_iff (want : List String) :
    ∀ (rest : List String) (i : Nat),
      isCredentialOfTypeLoop want i rest = true ↔
        ∀ k, k < rest.length → rest[k]? = want[i + k]? ∧ i + k < want.length := by
  intro rest
  induction rest with
  | nil => intro i; simp [isCredentialOfTypeLoop]
  | cons t rest ih =>
    intro i
    unfold isCredentialOfTypeLoop
    cases hu : want[i]? with
    | none =>
      simp only [Bool.false_eq_true, false_iff]
      intro h
      have h0 := (h 0 (by simp)).2
      have : i < want.length := by simpa using h0
      rw [List.getElem?_eq_none_iff] at hu
      omega
    | some u =>
      have hi : i < want.length := by
        by_contra hc
        rw [List.getElem?_eq_none (by omega)] at hu
        cases hu
      by_cases htu : t = u
      · subst htu
        simp only [bne_self_eq_false, Bool.false_eq_true, if_false]
        rw [ih (i + 1)]
        constructor
        · intro h k hk
          cases k with
          | zero => simpa [hu] using hi
          | succ k =>
            have hk2 : k < rest.length := by simpa using hk
            have := h k hk2
            have e : i + (k + 1) = i + 1 + k := by omega
            rw [e]
            simpa using this
        · intro h k hk
          have := h (k + 1) (by simpa using hk)
          have e : i + (k + 1) = i + 1 + k := by omega
          rw [e] at this
          simpa using this
      · have hne : (t != u) = true := by simpa using htu
        simp only [hne, if_true, Bool.false_eq_true, false_iff]
        intro h
        have h0 := (h 0 (by simp)).1
        simp [hu] at h0
        exact htu h0


/-- Helper: `IsCredentialOfType` is equality of the credential's type list with
the wanted list. -/
theorem isCredentialOfType_eq_true_iff (cred : VerifiableCredential) (want : List String) :
    IsCredentialOfType cred want = true ↔ cred.CredentialType = want := by
  unfold IsCredentialOfType
  by_cases hlen : cred.CredentialType.length = want.length
  · have hb : (cred.CredentialType.length != want.length) = false := by simpa using hlen
    simp only [hb, Bool.false_eq_true, if_false]
    rw [isCredentialOfTypeLoop_iff]
    constructor
    · intro h
      apply List.ext_getElem? 
      intro k
      by_cases hk : k < cred.CredentialType.length
      · simpa using (h k hk).1
      · rw [List.getElem?_eq_none (by omega), List.getElem?_eq_none (by omega)]
    · intro h k hk
      rw [h] at hk ⊢
      simpa using hk
  · have hb : (cred.CredentialType.length != want.length) = true := by simpa using hlen
    simp only [hb, if_true, Bool.false_eq_true, false_iff]
    intro h
    exact hlen (by rw [h])

/-- C1: `IsCredentialOfType(cred, want)` is true exactly when the credential's
type has the length of `want` and the same tag at every position, that is when
the two ordered lists are equal; a permutation of the tags that is not the
list itself, and a strict prefix in either direction, is not a match. -/
theorem IsCredentialOfType_iff_ordered_eq (cred : VerifiableCredential) (want : List String) :
    (IsCredentialOfType cred want = true ↔
      (cred.CredentialType.length = want.length ∧
        ∀ i, i < want.length → cred.CredentialType[i]? = want[i]?)) ∧
    (IsCredentialOfType cred want = true ↔ cred.CredentialType = want) ∧
    (cred.CredentialType.Perm want → cred.CredentialType ≠ want →
      IsCredentialOfType cred want = false) ∧
    (cred.CredentialType <+: want → cred.CredentialType ≠ want →
      IsCredentialOfType cred want = false) ∧
    (want <+: cred.CredentialType → want ≠ cred.CredentialType →
      IsCredentialOfType cred want = false) := by
  have key := isCredentialOfType_eq_true_iff cred want
  have hne : cred.CredentialType ≠ want → IsCredentialOfType cred want = false := by
    intro h
    cases hb : IsCredentialOfType cred want with
    | false => rfl
    | true => exact absurd (key.mp hb) h
  refine ⟨?_, key, fun _ h => hne h, fun _ h => hne h, fun _ h => hne (Ne.symm h)⟩
  rw [key]
  constructor
  · intro h
    rw [h]
    exact ⟨rfl, fun _ _ => rfl⟩
  · rintro ⟨hlen, h⟩
    apply List.ext_getElem?
    intro k
    by_cases hk : k < want.length
    · exact h k hk
    · rw [List.getElem?_eq_none (by omega), List.getElem?_eq_none (by omega)]

/-- C1 at concrete inputs: the email type matches itself, the two tags in the
other order do not match, and neither does the one-tag prefix. -/
theorem IsCredentialOfType_iff_ordered_eq_witness :
    IsCredentialOfType swappedEmailCred ["EmailCredential", "VerifiableCredential"] = true ∧
    IsCredentialOfType swappedEmailCred emailType = false ∧
    IsCredentialOfType swappedEmailCred ["EmailCredential"] = false :=
  ⟨(IsCredentialOfType_iff_ordered_eq swappedEmailCred _).2.1.mpr rfl,
   (IsCredentialOfType_iff_ordered_eq swappedEmailCred emailType).2.2.1
      (by decide) (by decide),
   (IsCredentialOfType_iff_ordered_eq swappedEmailCred ["EmailCredential"]).2.2.2.2
      (by decide) (by decide)⟩

/-- C2: for a credential whose type is not exactly the email credential type,
`ExtractEmailFromCredential` returns the empty string and `false`, whatever
its claims are. -/
theorem ExtractEmailFromCredential_wrong_type (CredentialTypeEmail : List String)
    (cred : VerifiableCredential) (h : cred.CredentialType ≠ CredentialTypeEmail) :
    ExtractEmailFromCredential CredentialTypeEmail cred = ("", false) := by
  have hb : IsCredentialOfType cred CredentialTypeEmail = false := by
    cases hb : IsCredentialOfType cred CredentialTypeEmail with
    | false => rfl
    | true => exact absurd ((isCredentialOfType_eq_true_iff _ _).mp hb) h
  simp [ExtractEmailFromCredential, hb]

/-- C2 at a concrete input: a profile-typed credential carrying the string
claim `emailAddress = "alice@example.com"` yields `("", false)`. -/
theorem ExtractEmailFromCredential_wrong_type_witness :
    profileCredWithEmail.CredentialType ≠ emailType ∧
    profileCredWithEmail.CredentialSubjectClaims.toOption.bind (fun m => m "emailAddress")
      = some (.str "alice@example.com") ∧
    ExtractEmailFromCredential emailType profileCredWithEmail = ("", false) :=
  ⟨by decide, by decide,
    ExtractEmailFromCredential_wrong_type emailType profileCredWithEmail (by decide)⟩

/-- Helper: the environment `switch` of `toAccountConfig` has only a `default`
arm, so every configuration is sent to the sandbox target. -/
theorem toAccountConfig_environment (c : Config) :
    c.toAccountConfig.Environment = account.TargetSandbox := rfl

/-- C3: at the configuration of `TestEnvironmentMapping` with `Environment`
set to `Production`, `toAccountConfig` yields the sandbox target with the
sandbox endpoints, which differs from `account.TargetProduction`. -/
theorem toAccountConfig_production_yields_sandbox :
    productionTestConfig.Environment = Production ∧
    productionTestConfig.toAccountConfig.Environment = account.TargetSandbox ∧
    productionTestConfig.toAccountConfig.Environment.Rpc = "https://rpc-sandbox.joinself.com/" ∧
    productionTestConfig.toAccountConfig.Environment ≠ account.TargetProduction := by
  refine ⟨rfl, rfl, rfl, ?_⟩
  decide

/-- C4: a configuration whose `Environment` is `Sandbox`, or was left at the
zero value of its type, is converted to an account configuration whose
`Environment` is `account.TargetSandbox`. -/
theorem toAccountConfig_sandbox (c : Config)
    (h : c.Environment = Sandbox ∨ c.Environment = ⟨0⟩) :
    c.toAccountConfig.Environment = account.TargetSandbox ∧
    c.toAccountConfig.Environment.Rpc = "https://rpc-sandbox.joinself.com/" := by
  rcases h with h | h <;> exact ⟨toAccountConfig_environment c, rfl⟩

/-- C4 at the configuration of `TestDefaultEnvironment`. -/
theorem toAccountConfig_sandbox_witness :
    (defaultEnvTestConfig.Environment = Sandbox ∨ defaultEnvTestConfig.Environment = ⟨0⟩) ∧
    defaultEnvTestConfig.toAccountConfig.Environment = account.TargetSandbox ∧
    defaultEnvTestConfig.toAccountConfig.Environment.Rpc = "https://rpc-sandbox.joinself.com/" :=
  ⟨Or.inr rfl, toAccountConfig_sandbox defaultEnvTestConfig (Or.inr rfl)⟩

/-- C5: for a storage key whose length `n` is not 32, `NewSimplifiedWithKey`
returns no client and the error `storage key must be exactly 32 bytes, got n`,
and the trace of outside calls is empty: neither `os.MkdirAll` nor `New` has
been called. -/
theorem NewSimplifiedWithKey_bad_key_length (env : Env) (storageKey : List Byte)
    (storagePath : String) (h : storageKey.length ≠ 32) :
    NewSimplifiedWithKey env storageKey storagePath =
      ((none, some (Error.errorf
        ("storage key must be exactly 32 bytes, got " ++ toString storageKey.length))), []) := by
  have hb : (storageKey.length != 32) = true := by simpa using h
  simp [NewSimplifiedWithKey, hb]

/-- C5 at the 16-byte key of `TestNewSimplifiedWithKey` and at the empty key:
the messages end in `got 16` and `got 0`, and no outside call is made. -/
theorem NewSimplifiedWithKey_bad_key_length_witness :
    (List.replicate 16 (0 : Byte)).length ≠ 32 ∧
    NewSimplifiedWithKey okEnv (List.replicate 16 0) "/tmp/test" =
      ((none, some (Error.errorf "storage key must be exactly 32 bytes, got 16")), []) ∧
    NewSimplifiedWithKey okEnv [] "/tmp/test" =
      ((none, some (Error.errorf "storage key must be exactly 32 bytes, got 0")), []) :=
  ⟨by decide,
    NewSimplifiedWithKey_bad_key_length okEnv (List.replicate 16 0) "/tmp/test" (by decide),
    NewSimplifiedWithKey_bad_key_length okEnv [] "/tmp/test" (by decide)⟩

/-- C6: at the zero-value configuration, whose `LogLevel` was never set,
`toAccountConfig` yields `account.LogError`, not `account.LogWarn`: the zero
value of `LogLevel` is the constant `LogError`. -/
theorem toAccountConfig_zero_logLevel :
    Config.zero.LogLevel = LogError ∧
    Config.zero.toAccountConfig.LogLevel = account.LogLevel.LogError ∧
    Config.zero.toAccountConfig.LogLevel ≠ account.LogLevel.LogWarn := by
  refine ⟨rfl, by decide, by decide⟩

/-- C7: `validate` returns `ErrStorageKeyRequired` when the key is empty,
whatever the path; `ErrStoragePathRequired` when the key is non-empty and the
path is the empty string; and no error exactly when both are non-empty. -/
theorem validate_spec (c : Config) :
    (c.StorageKey.length = 0 → c.validate = some ErrStorageKeyRequired) ∧
    (c.StorageKey.length ≠ 0 → c.StoragePath = "" →
      c.validate = some ErrStoragePathRequired) ∧
    (c.validate = none ↔ c.StorageKey.length ≠ 0 ∧ c.StoragePath ≠ "") := by
  unfold Config.validate
  by_cases hk : c.StorageKey.length = 0
  · simp [hk]
  · by_cases hp : c.StoragePath = ""
    · simp [hk, hp]
    · simp [hk, hp]

/-- C7 at concrete inputs: the zero configuration, a configuration with a key
and no path, and a configuration with both. -/
theorem validate_spec_witness :
    Config.zero.validate = some ErrStorageKeyRequired ∧
    ({ Config.zero with StoragePath := "/tmp/test" }).validate
      = some ErrStorageKeyRequired ∧
    ({ Config.zero with StorageKey := [7] }).validate = some ErrStoragePathRequired ∧
    productionTestConfig.validate = none :=
  ⟨(validate_spec Config.zero).1 rfl,
   (validate_spec { Config.zero with StoragePath := "/tmp/test" }).1 rfl,
   (validate_spec { Config.zero with StorageKey := [7] }).2.1 (by decide) rfl,
   (validate_spec productionTestConfig).2.2.mpr ⟨by decide, by decide⟩⟩

/-- Helper: the key produced by `generateSecureStorageKey` has 32 elements. -/
theorem generateSecureStorageKey_length (env : Env) :
    (generateSecureStorageKey env).length = 32 := by
  unfold generateSecureStorageKey
  cases env.randErr <;> simp

/-- C8: `generateSecureStorageKey` returns a key of exactly 32 bytes: when the
random source succeeds the key is the buffer of 32 bytes it filled, and when it
fails the key is the 32-byte SHA-256 digest of `self-sdk-<nanoseconds>`. -/
theorem generateSecureStorageKey_32_bytes (env : Env) :
    (generateSecureStorageKey env).length = 32 ∧
    (env.randErr = none →
      generateSecureStorageKey env = (List.range 32).map env.randBytes) ∧
    (∀ e, env.randErr = some e →
      generateSecureStorageKey env =
        List.ofFn (env.Sum256 ("self-sdk-" ++ toString env.now).toUTF8.toList)) := by
  refine ⟨generateSecureStorageKey_length env, ?_, ?_⟩
  · intro h
    unfold generateSecureStorageKey
    rw [h]
    rfl
  · intro e h
    unfold generateSecureStorageKey
    rw [h]

/-- C8 at two concrete environments: with a working random source and with a
failing one the key has 32 bytes. -/
theorem generateSecureStorageKey_32_bytes_witness :
    okEnv.randErr = none ∧ (generateSecureStorageKey okEnv).length = 32 ∧
    randFailEnv.randErr ≠ none ∧ (generateSecureStorageKey randFailEnv).length = 32 :=
  ⟨rfl, (generateSecureStorageKey_32_bytes okEnv).1, by decide,
    (generateSecureStorageKey_32_bytes randFailEnv).1⟩

/-- C9: for a non-empty `storagePath`, `NewSimplified` makes exactly one outside
call, `New(config)`, and returns its result; that `config` has `Environment`
`Sandbox`, `LogLevel` `LogWarn`, both skip flags `false`, `StoragePath` equal
to `storagePath`, a 32-byte `StorageKey`, and `validate` accepts it. -/
theorem NewSimplified_config (env : Env) (storagePath : String) (h : storagePath ≠ "") :
    ∃ config : Config,
      NewSimplified env storagePath = (env.New config, [Call.New config]) ∧
      config.Environment = Sandbox ∧ config.LogLevel = LogWarn ∧
      config.SkipReady = false ∧ config.SkipSetup = false ∧
      config.StoragePath = storagePath ∧ config.StorageKey.length = 32 ∧
      config.validate = none := by
  refine ⟨_, rfl, rfl, rfl, rfl, rfl, rfl, generateSecureStorageKey_length env, ?_⟩
  simp [Config.validate, generateSecureStorageKey_length, h]

/-- C9 at the path `/tmp/test` with a failing random source. -/
theorem NewSimplified_config_witness :
    ("/tmp/test" : String) ≠ "" ∧
    ∃ config : Config,
      NewSimplified randFailEnv "/tmp/test" = (randFailEnv.New config, [Call.New config]) ∧
      config.Environment = Sandbox ∧ config.LogLevel = LogWarn ∧
      config.SkipReady = false ∧ config.SkipSetup = false ∧
      config.StoragePath = "/tmp/test" ∧ config.StorageKey.length = 32 ∧
      config.validate = none :=
  ⟨by decide, NewSimplified_config randFailEnv "/tmp/test" (by decide)⟩

/-- C10: for a 32-byte key and a non-empty path whose directory creation
succeeds, `NewSimplifiedWithKey` calls `os.MkdirAll(storagePath, 0700)` and
then `New(config)`, returning the latter's result; that `config` has
`Environment` `Production`, `LogLevel` `LogError`, both skip flags `false`,
the given key and path unchanged, and `validate` accepts it. -/
theorem NewSimplifiedWithKey_config (env : Env) (storageKey : List Byte)
    (storagePath : String) (hkey : storageKey.length = 32) (hpath : storagePath ≠ "")
    (hdir : env.MkdirAll storagePath 0o700 = none) :
    ∃ config : Config,
      NewSimplifiedWithKey env storageKey storagePath =
        (env.New config, [Call.MkdirAll storagePath 0o700, Call.New config]) ∧
      config.Environment = Production ∧ config.LogLevel = LogError ∧
      config.SkipReady = false ∧ config.SkipSetup = false ∧
      config.StorageKey = storageKey ∧ config.StoragePath = storagePath ∧
      config.validate = none := by
  refine ⟨{ StorageKey := storageKey, StoragePath := storagePath, Environment := Production,
            LogLevel := LogError, SkipReady := false, SkipSetup := false },
          ?_, rfl, rfl, rfl, rfl, rfl, rfl, ?_⟩
  · simp [NewSimplifiedWithKey, hkey, hdir]
  · simp [Config.validate, hkey, hpath]

/-- C10 at the key `0 … 31` of `TestNewSimplifiedWithKey` and the path
`/tmp/test`. -/
theorem NewSimplifiedWithKey_config_witness :
    testStorageKey.length = 32 ∧ ("/tmp/test" : String) ≠ "" ∧
    okEnv.MkdirAll "/tmp/test" 0o700 = none ∧
    ∃ config : Config,
      NewSimplifiedWithKey okEnv testStorageKey "/tmp/test" =
        (okEnv.New config, [Call.MkdirAll "/tmp/test" 0o700, Call.New config]) ∧
      config.Environment = Production ∧ config.LogLevel = LogError ∧
      config.SkipReady = false ∧ config.SkipSetup = false ∧
      config.StorageKey = testStorageKey ∧ config.StoragePath = "/tmp/test" ∧
      config.validate = none :=
  ⟨by decide, by decide, rfl,
    NewSimplifiedWithKey_config okEnv testStorageKey "/tmp/test" (by decide) (by decide) rfl⟩

/-- Helper: `assertString` succeeds exactly on a present string claim, and
then returns that string. -/
theorem assertString_eq_true_iff (v : Option ClaimValue) (s : String) :
    assertString v = (s, true) ↔ v = some (.str s) := by
  unfold assertString
  split
  · simp
  · rename_i h
    constructor
    · intro h2
      simp at h2
    · intro h2
      exact absurd h2 (h s)

/-- Helper: a failed `assertString` returns the zero value. -/
theorem assertString_false (v : Option ClaimValue) (h : (assertString v).2 = false) :
    assertString v = ("", false) := by
  unfold assertString at h ⊢
  split
  · rename_i s
    simp at h
  · rfl

/-- Helper: `assertInt` succeeds exactly on a present `int` claim. -/
theorem assertInt_eq_true_iff (v : Option ClaimValue) (i : Int) :
    assertInt v = (i, true) ↔ v = some (.int i) := by
  unfold assertInt
  split
  · simp
  · rename_i h
    constructor
    · intro h2
      simp at h2
    · intro h2
      exact absurd h2 (h i)

/-- Helper: `assertFloat64` succeeds exactly on a present `float64` claim. -/
theorem assertFloat64_eq_true_iff (v : Option ClaimValue) (g : Nat) :
    assertFloat64 v = (g, true) ↔ v = some (.float64 g) := by
  unfold assertFloat64
  split
  · simp
  · rename_i h
    constructor
    · intro h2
      simp at h2
    · intro h2
      exact absurd h2 (h g)

/-- Helper: a credential of the wanted type passes `IsCredentialOfType`. -/
theorem isCredentialOfType_self (cred : VerifiableCredential) :
    IsCredentialOfType cred cred.CredentialType = true :=
  (isCredentialOfType_eq_true_iff cred cred.CredentialType).mpr rfl

/-- Helper: a credential of another type fails `IsCredentialOfType`. -/
theorem isCredentialOfType_eq_false (cred : VerifiableCredential) (want : List String)
    (h : cred.CredentialType ≠ want) : IsCredentialOfType cred want = false := by
  cases hb : IsCredentialOfType cred want with
  | false => rfl
  | true => exact absurd ((isCredentialOfType_eq_true_iff _ _).mp hb) h

/-- C11: with `Issue` returning a credential whose type and claims are the
values accumulated by the builder, `CreateSimpleEmailCredential` succeeds for
every client identity, subject and email address `e`, and
`ExtractEmailFromCredential` applied to the credential it returns gives
`(e, true)`. -/
theorem CreateSimpleEmailCredential_roundtrip (CredentialTypeEmail : List String)
    (clientDID : String) (now₁ now₂ : Int) (subjectDID e : String) :
    ∃ cred : VerifiableCredential,
      CreateSimpleEmailCredential CredentialTypeEmail clientDID now₁ now₂ subjectDID e
        = (some cred, none) ∧
      ExtractEmailFromCredential CredentialTypeEmail cred = (e, true) := by
  refine ⟨_, rfl, ?_⟩
  have ht : IsCredentialOfType
      { CredentialType := CredentialTypeEmail
        CredentialSubjectClaims := .ok
          (((((((NewCredentialBuilder.SetType CredentialTypeEmail).Subject subjectDID).Issuer
            clientDID).Claim "emailAddress" (.str e)).Claim "verified"
            (.bool true)).ValidFrom now₁).SignWith clientDID now₂).claims }
      CredentialTypeEmail = true := isCredentialOfType_self _
  unfold ExtractEmailFromCredential
  rw [ht]
  simp [CredentialBuilder.SignWith, CredentialBuilder.ValidFrom, CredentialBuilder.Claim]

/-- C11 at a concrete input: the credential issued for `bob@example.com` is
returned without error and the address is read back. -/
theorem CreateSimpleEmailCredential_roundtrip_witness :
    ∃ cred : VerifiableCredential,
      CreateSimpleEmailCredential emailType "did:self:issuer" 1700000000 1700000001
        "did:self:subject" "bob@example.com" = (some cred, none) ∧
      ExtractEmailFromCredential emailType cred = ("bob@example.com", true) :=
  CreateSimpleEmailCredential_roundtrip emailType "did:self:issuer" 1700000000 1700000001
    "did:self:subject" "bob@example.com"

/-- Helper: on a credential of the profile-name type whose claims can be read,
`ExtractNameFromCredential` is decided by the two type assertions. -/
theorem ExtractNameFromCredential_ok (T : List String) (cred : VerifiableCredential)
    (claims : String → Option ClaimValue) (ht : cred.CredentialType = T)
    (hc : cred.CredentialSubjectClaims = .ok claims) :
    ExtractNameFromCredential T cred =
      if (assertString (claims "firstName")).2 && (assertString (claims "lastName")).2 then
        ((assertString (claims "firstName")).1, (assertString (claims "lastName")).1, true)
      else ("", "", false) := by
  have hb : IsCredentialOfType cred T = true := (isCredentialOfType_eq_true_iff cred T).mpr ht
  unfold ExtractNameFromCredential
  rw [hb, hc]
  rfl

/-- C12: `ExtractNameFromCredential` returns `(first, last, true)` exactly when
the credential's type is the profile-name type, its subject claims can be read
and the claims `firstName` and `lastName` are present with the string values
`first` and `last`; in every other case it returns `("", "", false)`. -/
theorem ExtractNameFromCredential_spec (CredentialTypeProfileName : List String)
    (cred : VerifiableCredential) :
    (∀ first last : String,
      ExtractNameFromCredential CredentialTypeProfileName cred = (first, last, true) ↔
        (cred.CredentialType = CredentialTypeProfileName ∧
          ∃ claims, cred.CredentialSubjectClaims = .ok claims ∧
            claims "firstName" = some (.str first) ∧
            claims "lastName" = some (.str last))) ∧
    ((¬ ∃ first last claims,
          cred.CredentialType = CredentialTypeProfileName ∧
          cred.CredentialSubjectClaims = .ok claims ∧
          claims "firstName" = some (.str first) ∧
          claims "lastName" = some (.str last)) →
      ExtractNameFromCredential CredentialTypeProfileName cred = ("", "", false)) := by
  by_cases ht : cred.CredentialType = CredentialTypeProfileName
  · cases hc : cred.CredentialSubjectClaims with
    | error err =>
      have hres : ExtractNameFromCredential CredentialTypeProfileName cred = ("", "", false) := by
        have hb := (isCredentialOfType_eq_true_iff cred _).mpr ht
        unfold ExtractNameFromCredential
        rw [hb, hc]
        rfl
      refine ⟨fun first last => ?_, fun _ => hres⟩
      rw [hres]
      constructor
      · intro h
        simp at h
      · rintro ⟨_, claims, h, _⟩
        cases h
    | ok claims =>
      have hres := ExtractNameFromCredential_ok _ cred claims ht hc
      rw [hres]
      cases hf : assertString (claims "firstName") with
      | mk f fok =>
        cases hl : assertString (claims "lastName") with
        | mk l lok =>
          cases fok with
          | false =>
            have hnone : ∀ first, claims "firstName" ≠ some (.str first) := by
              intro first h
              have := (assertString_eq_true_iff _ first).mpr h
              rw [hf] at this
              simp at this
            refine ⟨fun first last => ?_, fun _ => by simp⟩
            constructor
            · intro h
              simp at h
            · rintro ⟨_, claims2, h2, h3, _⟩
              cases h2
              exact absurd h3 (hnone first)
          | true =>
            have hfirst := (assertString_eq_true_iff _ f).mp hf
            cases lok with
            | false =>
              have hnone : ∀ last, claims "lastName" ≠ some (.str last) := by
                intro last h
                have := (assertString_eq_true_iff _ last).mpr h
                rw [hl] at this
                simp at this
              refine ⟨fun first last => ?_, fun _ => by simp⟩
              constructor
              · intro h
                simp at h
              · rintro ⟨_, claims2, h2, _, h4⟩
                cases h2
                exact absurd h4 (hnone last)
            | true =>
              have hlast := (assertString_eq_true_iff _ l).mp hl
              refine ⟨fun first last => ?_, fun hneg => ?_⟩
              · constructor
                · intro h
                  simp at h
                  obtain ⟨h1, h2⟩ := h
                  subst h1 h2
                  exact ⟨ht, claims, rfl, hfirst, hlast⟩
                · rintro ⟨_, claims2, h2, h3, h4⟩
                  cases h2
                  rw [hfirst] at h3
                  rw [hlast] at h4
                  cases h3
                  cases h4
                  simp
              · exact absurd ⟨f, l, claims, ht, rfl, hfirst, hlast⟩ hneg
  · have hres : ExtractNameFromCredential CredentialTypeProfileName cred = ("", "", false) := by
      have hb := isCredentialOfType_eq_false cred _ ht
      unfold ExtractNameFromCredential
      rw [hb]
      rfl
    refine ⟨fun first last => ?_, fun _ => hres⟩
    rw [hres]
    constructor
    · intro h
      simp at h
    · rintro ⟨h, _⟩
      exact absurd h ht

/-- C12 at concrete inputs: a profile-name credential with both names, the
same credential read as another type, and one whose `lastName` is a boolean. -/
theorem ExtractNameFromCredential_spec_witness :
    ExtractNameFromCredential profileNameType profileNameCred = ("Ada", "Lovelace", true) ∧
    ExtractNameFromCredential emailType profileNameCred = ("", "", false) ∧
    ExtractNameFromCredential profileNameType profileNameCredBadLast = ("", "", false) :=
  ⟨((ExtractNameFromCredential_spec profileNameType profileNameCred).1 "Ada" "Lovelace").mpr
      ⟨rfl, profileClaims, rfl, by decide, by decide⟩,
   (ExtractNameFromCredential_spec emailType profileNameCred).2
      (by rintro ⟨_, _, _, h, _⟩; exact absurd h (by decide)),
   (ExtractNameFromCredential_spec profileNameType profileNameCredBadLast).2
      (by
        rintro ⟨_, _, claims, _, h2, _, h4⟩
        cases h2
        simp at h4)⟩

/-- Helper: a successful `assertString` returns the string held by the claim. -/
theorem assertString_snd (v : Option ClaimValue) (h : (assertString v).2 = true) :
    v = some (.str (assertString v).1) :=
  (assertString_eq_true_iff v _).mp (Prod.ext rfl h)

/-- Helper: a successful `assertInt` returns the integer held by the claim. -/
theorem assertInt_snd (v : Option ClaimValue) (h : (assertInt v).2 = true) :
    v = some (.int (assertInt v).1) :=
  (assertInt_eq_true_iff v _).mp (Prod.ext rfl h)

/-- Helper: a successful `assertFloat64` returns the value held by the claim. -/
theorem assertFloat64_snd (v : Option ClaimValue) (h : (assertFloat64 v).2 = true) :
    v = some (.float64 (assertFloat64 v).1) :=
  (assertFloat64_eq_true_iff v _).mp (Prod.ext rfl h)

/-- Helper: on a credential of the education type whose claims can be read,
`ExtractEducationFromCredential` is decided by the four type assertions. -/
theorem ExtractEducationFromCredential_ok (cred : VerifiableCredential)
    (claims : String → Option ClaimValue)
    (ht : cred.CredentialType = ["VerifiableCredential", "EducationCredential"])
    (hc : cred.CredentialSubjectClaims = .ok claims) :
    ExtractEducationFromCredential cred =
      if (assertString (claims "degree")).2 && (assertString (claims "institution")).2 &&
          (assertInt (claims "graduationYear")).2 && (assertFloat64 (claims "gpa")).2 then
        ((assertString (claims "degree")).1, (assertString (claims "institution")).1,
          (assertInt (claims "graduationYear")).1, (assertFloat64 (claims "gpa")).1, true)
      else ("", "", 0, 0, false) := by
  have hb := (isCredentialOfType_eq_true_iff cred _).mpr ht
  unfold ExtractEducationFromCredential
  rw [hb, hc]
  rfl

/-- Helper: whatever the credential, a result of `ExtractEducationFromCredential`
whose flag is `false` is the all-zero tuple. -/
theorem ExtractEducationFromCredential_flag_false (cred : VerifiableCredential)
    (h : (ExtractEducationFromCredential cred).2.2.2.2 = false) :
    ExtractEducationFromCredential cred = ("", "", 0, 0, false) := by
  by_cases ht : cred.CredentialType = ["VerifiableCredential", "EducationCredential"]
  · cases hc : cred.CredentialSubjectClaims with
    | error err =>
      have hb := (isCredentialOfType_eq_true_iff cred _).mpr ht
      unfold ExtractEducationFromCredential
      rw [hb, hc]
      rfl
    | ok claims =>
      rw [ExtractEducationFromCredential_ok cred claims ht hc] at h ⊢
      split
      · rename_i hcond
        rw [if_pos hcond] at h
        simp at h
      · rfl
  · have hb := isCredentialOfType_eq_false cred _ ht
    unfold ExtractEducationFromCredential
    rw [hb]
    rfl

/-- C13: `ExtractEducationFromCredential` is all-or-nothing.  It returns
`("", "", 0, 0.0, false)` when the type is not exactly
`[VerifiableCredential, EducationCredential]`, when the claims cannot be read,
and when one of `degree` (string), `institution` (string), `graduationYear`
(int) and `gpa` (float64) is missing or of another kind; a result whose flag is
`false` is always that tuple; and when the flag is `true` the four values are
the four claim values. -/
theorem ExtractEducationFromCredential_all_or_nothing (cred : VerifiableCredential) :
    (cred.CredentialType ≠ ["VerifiableCredential", "EducationCredential"] →
      ExtractEducationFromCredential cred = ("", "", 0, 0, false)) ∧
    (∀ err, cred.CredentialSubjectClaims = .error err →
      ExtractEducationFromCredential cred = ("", "", 0, 0, false)) ∧
    (∀ claims, cred.CredentialSubjectClaims = .ok claims →
      ((∀ d, claims "degree" ≠ some (.str d)) ∨
       (∀ i, claims "institution" ≠ some (.str i)) ∨
       (∀ y, claims "graduationYear" ≠ some (.int y)) ∨
       (∀ g, claims "gpa" ≠ some (.float64 g))) →
      ExtractEducationFromCredential cred = ("", "", 0, 0, false)) ∧
    ((ExtractEducationFromCredential cred).2.2.2.2 = false →
      ExtractEducationFromCredential cred = ("", "", 0, 0, false)) ∧
    (∀ d i y g, ExtractEducationFromCredential cred = (d, i, y, g, true) →
      cred.CredentialType = ["VerifiableCredential", "EducationCredential"] ∧
      ∃ claims, cred.CredentialSubjectClaims = .ok claims ∧
        claims "degree" = some (.str d) ∧ claims "institution" = some (.str i) ∧
        claims "graduationYear" = some (.int y) ∧ claims "gpa" = some (.float64 g)) := by
  have hflag := ExtractEducationFromCredential_flag_false cred
  refine ⟨?_, ?_, ?_, hflag, ?_⟩
  · intro ht
    apply hflag
    have hb := isCredentialOfType_eq_false cred _ ht
    unfold ExtractEducationFromCredential
    rw [hb]
    rfl
  · intro err hc
    apply hflag
    unfold ExtractEducationFromCredential
    split
    · rfl
    · rw [hc]
  · intro claims hc hmiss
    apply hflag
    by_cases ht : cred.CredentialType = ["VerifiableCredential", "EducationCredential"]
    · rw [ExtractEducationFromCredential_ok cred claims ht hc]
      split
      · rename_i hcond
        simp only [Bool.and_eq_true] at hcond
        obtain ⟨⟨⟨h1, h2⟩, h3⟩, h4⟩ := hcond
        rcases hmiss with h | h | h | h
        · exact absurd (assertString_snd _ h1) (h _)
        · exact absurd (assertString_snd _ h2) (h _)
        · exact absurd (assertInt_snd _ h3) (h _)
        · exact absurd (assertFloat64_snd _ h4) (h _)
      · rfl
    · have hb := isCredentialOfType_eq_false cred _ ht
      unfold ExtractEducationFromCredential
      rw [hb]
      rfl
  · intro d i y g hres
    by_cases ht : cred.CredentialType = ["VerifiableCredential", "EducationCredential"]
    · refine ⟨ht, ?_⟩
      cases hc : cred.CredentialSubjectClaims with
      | error err =>
        exfalso
        have hb := (isCredentialOfType_eq_true_iff cred _).mpr ht
        unfold ExtractEducationFromCredential at hres
        rw [hb, hc] at hres
        simp at hres
      | ok claims =>
        rw [ExtractEducationFromCredential_ok cred claims ht hc] at hres
        split at hres
        · rename_i hcond
          simp only [Bool.and_eq_true] at hcond
          obtain ⟨⟨⟨h1, h2⟩, h3⟩, h4⟩ := hcond
          simp only [Prod.mk.injEq, and_true] at hres
          obtain ⟨e1, e2, e3, e4⟩ := hres
          refine ⟨claims, rfl, ?_, ?_, ?_, ?_⟩
          · rw [← e1]; exact assertString_snd _ h1
          · rw [← e2]; exact assertString_snd _ h2
          · rw [← e3]; exact assertInt_snd _ h3
          · rw [← e4]; exact assertFloat64_snd _ h4
        · simp at hres
    · exfalso
      have hb := isCredentialOfType_eq_false cred _ ht
      unfold ExtractEducationFromCredential at hres
      rw [hb] at hres
      simp at hres

/-- C13 at concrete inputs: a complete education credential yields its four
claim values, and the same credential with a `float64` year yields the
all-zero tuple although the other three claims are well-formed. -/
theorem ExtractEducationFromCredential_all_or_nothing_witness :
    ExtractEducationFromCredential educationCred =
      ("BSc", "MIT", 2020, 0x4010000000000000, true) ∧
    ExtractEducationFromCredential educationCredFloatYear = ("", "", 0, 0, false) :=
  ⟨by decide,
   (ExtractEducationFromCredential_all_or_nothing educationCredFloatYear).2.2.1 _ rfl
     (Or.inr (Or.inr (Or.inl (fun y h => by simp at h))))⟩

/-- C14: `toAccountConfig` sends `LogError`, `LogWarn`, `LogInfo`, `LogDebug`
and `LogTrace` each to the account log level of the same name, so that two
configurations with distinct named levels get distinct account levels; it
sends every other `LogLevel` value to `account.LogWarn`; and it copies
`StorageKey`, `StoragePath`, `SkipReady` and `SkipSetup` unchanged. -/
theorem toAccountConfig_logLevel_and_copies (c : Config) :
    (c.LogLevel = LogError → c.toAccountConfig.LogLevel = account.LogLevel.LogError) ∧
    (c.LogLevel = LogWarn → c.toAccountConfig.LogLevel = account.LogLevel.LogWarn) ∧
    (c.LogLevel = LogInfo → c.toAccountConfig.LogLevel = account.LogLevel.LogInfo) ∧
    (c.LogLevel = LogDebug → c.toAccountConfig.LogLevel = account.LogLevel.LogDebug) ∧
    (c.LogLevel = LogTrace → c.toAccountConfig.LogLevel = account.LogLevel.LogTrace) ∧
    (∀ d : Config,
      c.LogLevel ∈ [LogError, LogWarn, LogInfo, LogDebug, LogTrace] →
      d.LogLevel ∈ [LogError, LogWarn, LogInfo, LogDebug, LogTrace] →
      c.LogLevel ≠ d.LogLevel →
      c.toAccountConfig.LogLevel ≠ d.toAccountConfig.LogLevel) ∧
    (c.LogLevel ∉ [LogError, LogWarn, LogInfo, LogDebug, LogTrace] →
      c.toAccountConfig.LogLevel = account.LogLevel.LogWarn) ∧
    c.toAccountConfig.StorageKey = c.StorageKey ∧
    c.toAccountConfig.StoragePath = c.StoragePath ∧
    c.toAccountConfig.SkipReady = c.SkipReady ∧
    c.toAccountConfig.SkipSetup = c.SkipSetup := by
  have named : ∀ x : Config,
      (x.LogLevel = LogError → x.toAccountConfig.LogLevel = account.LogLevel.LogError) ∧
      (x.LogLevel = LogWarn → x.toAccountConfig.LogLevel = account.LogLevel.LogWarn) ∧
      (x.LogLevel = LogInfo → x.toAccountConfig.LogLevel = account.LogLevel.LogInfo) ∧
      (x.LogLevel = LogDebug → x.toAccountConfig.LogLevel = account.LogLevel.LogDebug) ∧
      (x.LogLevel = LogTrace → x.toAccountConfig.LogLevel = account.LogLevel.LogTrace) := by
    intro x
    refine ⟨?_, ?_, ?_, ?_, ?_⟩ <;> intro h <;>
      simp [Config.toAccountConfig, h, LogError, LogWarn, LogInfo, LogDebug, LogTrace]
  obtain ⟨c0, c1, c2, c3, c4⟩ := named c
  refine ⟨c0, c1, c2, c3, c4, ?_, ?_, rfl, rfl, rfl, rfl⟩
  · intro d hc hd hne
    obtain ⟨d0, d1, d2, d3, d4⟩ := named d
    simp only [List.mem_cons, List.mem_singleton, List.not_mem_nil, or_false] at hc hd
    rcases hc with hc | hc | hc | hc | hc <;> rcases hd with hd | hd | hd | hd | hd <;>
      first
      | exact absurd (hc.trans hd.symm) hne
      | (simp only [c0, c1, c2, c3, c4, d0, d1, d2, d3, d4, hc, hd, ne_eq,
          not_false_eq_true, reduceCtorEq])
  · intro hnot
    simp only [List.mem_cons, List.mem_singleton, List.not_mem_nil, or_false, not_or] at hnot
    obtain ⟨n0, n1, n2, n3, n4⟩ := hnot
    simp [Config.toAccountConfig, n0, n1, n2, n3, n4]

/-- C14 at a configuration whose log level `7` is none of the named constants
and at the production test configuration, whose level is `LogWarn`. -/
theorem toAccountConfig_logLevel_and_copies_witness :
    oddLogLevelConfig.toAccountConfig.LogLevel = account.LogLevel.LogWarn ∧
    oddLogLevelConfig.toAccountConfig.StorageKey = [1, 2, 3] ∧
    oddLogLevelConfig.toAccountConfig.StoragePath = "/var/self" ∧
    oddLogLevelConfig.toAccountConfig.SkipReady = true ∧
    oddLogLevelConfig.toAccountConfig.SkipSetup = false ∧
    productionTestConfig.toAccountConfig.LogLevel = account.LogLevel.LogWarn :=
  ⟨(toAccountConfig_logLevel_and_copies oddLogLevelConfig).2.2.2.2.2.2.1 (by decide),
   (toAccountConfig_logLevel_and_copies oddLogLevelConfig).2.2.2.2.2.2.2.1,
   (toAccountConfig_logLevel_and_copies oddLogLevelConfig).2.2.2.2.2.2.2.2.1,
   (toAccountConfig_logLevel_and_copies oddLogLevelConfig).2.2.2.2.2.2.2.2.2.1,
   (toAccountConfig_logLevel_and_copies oddLogLevelConfig).2.2.2.2.2.2.2.2.2.2,
   (toAccountConfig_logLevel_and_copies productionTestConfig).2.1 rfl⟩

end Academy
